import Mathlib

/-!
Verification development for the go-invoke-node repository (src/main.go):
a small HTTP front end that accepts a JSON payload on POST /invoke, runs the
external `node` interpreter as a child process with the payload on its
standard input, and maps the child outcome to an HTTP response.

Shallow embedding conventions:
* byte strings (request payloads, captured stdout) are `List Nat`, each
  element a byte value;
* Go strings that are only ever compared or concatenated are Lean `String`;
* `log.Fatalf` (which terminates the process) is `Except.error`;
* external collaborators from the Go standard library that the repository
  only calls (`strconv.Atoi`, `time.ParseDuration`, `os.Getenv`, the child
  process itself) are parameters of the embedding, except `json.Valid` and
  `bytes.SplitSeq`/`bytes.TrimSpace`, which are translated below because
  claims depend on their concrete behaviour.
-/

namespace InvokeNode

/-! ## Bytes helpers and the JSON validity scanner

Translation of `encoding/json.Valid` (the scanner state machine of
encoding/json/scanner.go), rewritten as a recursive-descent checker over the
byte list.  The grammar it accepts is exactly the scanner's: one JSON value,
surrounded by optional whitespace (space, tab, carriage return, newline);
strings accept any byte except an unescaped control byte below 0x20, with
the escapes b f n r t \ / " and \uXXXX; numbers follow the strict JSON
number grammar (no leading zeros, a fraction needs a digit, an exponent
needs a digit); literals are exactly true, false, null.  The `fuel`
parameter only bounds recursion depth: every two consecutive fuel
decrements consume at least one input byte, so `2 * length + 2` fuel is
never exhausted before the input is.
-/

/-- Whitespace bytes accepted by the Go JSON scanner: space, \t, \r, \n. -/
def isSpaceByte (c : Nat) : Bool := c = 32 || c = 9 || c = 13 || c = 10

/-- Drop leading JSON whitespace bytes. -/
def skipSpace : List Nat → List Nat
  | [] => []
  | c :: cs => if isSpaceByte c then skipSpace cs else c :: cs

/-- Decimal digit byte. -/
def isDigitByte (c : Nat) : Bool := 48 ≤ c && c ≤ 57

/-- Nonzero decimal digit byte. -/
def isDigit19 (c : Nat) : Bool := 49 ≤ c && c ≤ 57

/-- Hex digit byte (0-9, a-f, A-F). -/
def isHexByte (c : Nat) : Bool :=
  isDigitByte c || (97 ≤ c && c ≤ 102) || (65 ≤ c && c ≤ 70)

/-- Drop leading decimal digit bytes. -/
def dropDigits : List Nat → List Nat
  | [] => []
  | c :: cs => if isDigitByte c then dropDigits cs else c :: cs

/-- Scan the remainder of a JSON string after the opening quote; returns the
rest of the input after the closing quote. -/
def scanStringRest : List Nat → Option (List Nat)
  | [] => none
  | c :: cs =>
    if c = 34 then some cs
    else if c = 92 then
      match cs with
      | [] => none
      | e :: es =>
        if e = 98 || e = 102 || e = 110 || e = 114 || e = 116 ||
           e = 92 || e = 47 || e = 34 then scanStringRest es
        else if e = 117 then
          match es with
          | h1 :: h2 :: h3 :: h4 :: rest =>
            if isHexByte h1 && isHexByte h2 && isHexByte h3 && isHexByte h4 then
              scanStringRest rest
            else none
          | _ => none
        else none
    else if c < 32 then none
    else scanStringRest cs

/-- Scan an exponent body: at least one digit, then any further digits. -/
def scanExpDigits : List Nat → Option (List Nat)
  | [] => none
  | c :: cs => if isDigitByte c then some (dropDigits cs) else none

/-- Scan the optional fraction and exponent after the integer part of a
JSON number. -/
def scanNumRest (s : List Nat) : Option (List Nat) :=
  let afterFrac : Option (List Nat) :=
    match s with
    | 46 :: cs =>
      match cs with
      | d :: ds => if isDigitByte d then some (dropDigits ds) else none
      | [] => none
    | _ => some s
  match afterFrac with
  | none => none
  | some t =>
    match t with
    | 101 :: cs =>
      (match cs with
       | 43 :: ds => scanExpDigits ds
       | 45 :: ds => scanExpDigits ds
       | ds => scanExpDigits ds)
    | 69 :: cs =>
      (match cs with
       | 43 :: ds => scanExpDigits ds
       | 45 :: ds => scanExpDigits ds
       | ds => scanExpDigits ds)
    | _ => some t

/-- Match an exact byte sequence (tail of a literal such as true). -/
def expectLit : List Nat → List Nat → Option (List Nat)
  | [], s => some s
  | _ :: _, [] => none
  | l :: ls, c :: cs => if c = l then expectLit ls cs else none

mutual

/-- Scan one JSON value, allowing leading whitespace; returns the unread
rest of the input. -/
def scanValue : Nat → List Nat → Option (List Nat)
  | 0, _ => none
  | fuel + 1, s =>
    match skipSpace s with
    | [] => none
    | c :: cs =>
      if c = 123 then scanObjBody fuel cs
      else if c = 91 then scanArrBody fuel cs
      else if c = 34 then scanStringRest cs
      else if c = 45 then
        match cs with
        | [] => none
        | d :: ds =>
          if d = 48 then scanNumRest ds
          else if isDigit19 d then scanNumRest (dropDigits ds)
          else none
      else if c = 48 then scanNumRest cs
      else if isDigit19 c then scanNumRest (dropDigits cs)
      else if c = 116 then expectLit [114, 117, 101] cs
      else if c = 102 then expectLit [97, 108, 115, 101] cs
      else if c = 110 then expectLit [117, 108, 108] cs
      else none

/-- Scan an object body after the opening brace: either an immediate closing
brace or a first member. -/
def scanObjBody : Nat → List Nat → Option (List Nat)
  | 0, _ => none
  | fuel + 1, s =>
    match skipSpace s with
    | 125 :: r => some r
    | t => scanMember fuel t

/-- Scan one object member (string key, colon, value) and the following
separator, looping on commas until the closing brace. -/
def scanMember : Nat → List Nat → Option (List Nat)
  | 0, _ => none
  | fuel + 1, s =>
    match s with
    | 34 :: cs =>
      (match scanStringRest cs with
       | none => none
       | some r1 =>
         match skipSpace r1 with
         | 58 :: r2 =>
           (match scanValue fuel r2 with
            | none => none
            | some r3 =>
              match skipSpace r3 with
              | 44 :: r4 => scanMember fuel (skipSpace r4)
              | 125 :: r4 => some r4
              | _ => none)
         | _ => none)
    | _ => none

/-- Scan an array body after the opening bracket: either an immediate
closing bracket or a first element followed by the tail. -/
def scanArrBody : Nat → List Nat → Option (List Nat)
  | 0, _ => none
  | fuel + 1, s =>
    match skipSpace s with
    | 93 :: r => some r
    | t =>
      match scanValue fuel t with
      | none => none
      | some r => scanArrTail fuel r

/-- Scan the separators and further elements of an array after an element. -/
def scanArrTail : Nat → List Nat → Option (List Nat)
  | 0, _ => none
  | fuel + 1, s =>
    match skipSpace s with
    | 44 :: r =>
      (match scanValue fuel r with
       | none => none
       | some r2 => scanArrTail fuel r2)
    | 93 :: r => some r
    | _ => none

end

/-- Translation of `json.Valid`: the data is one syntactically well formed
JSON value with nothing but whitespace around it.  The empty input (and any
all-whitespace input) is invalid. -/
def json_Valid (data : List Nat) : Bool :=
  match scanValue (2 * data.length + 2) data with
  | some rest => (skipSpace rest).isEmpty
  | none => false

/-! ## Configuration (src/main.go, lines 19-108)

`time.Duration` values are modelled as natural numbers of nanoseconds.
`strconv.Atoi` and `time.ParseDuration` are standard-library collaborators
and appear as parameters (`atoi`, `parseDur`), returning `none` where the
Go function returns an error; `os.Getenv` appears as `getenv`, returning
the empty string for an unset variable, exactly as in Go. -/

/-- The resolved configuration (struct Config of src/main.go). -/
structure Config where
  Port : Int
  InlineScript : String
  ScriptFile : String
  EnvFile : String
  Timeout : Nat
  deriving DecidableEq, Repr

/-- The defaults installed at the top of main (lines 96-102):
port 8080, empty script fields, 30 second timeout. -/
def defaultConfig : Config :=
  { Port := 8080, InlineScript := "", ScriptFile := "", EnvFile := "",
    Timeout := 30 * 1000000000 }

def envPortKey : String := "PORT"
def envInlineKey : String := "SCRIPT"
def envScriptFileKey : String := "SCRIPT_FILE"
def envEnvFileKey : String := "ENV_FILE"
def envTimeoutKey : String := "TIMEOUT_DURATION"

/-- The PORT block of Config.LoadEnv (lines 42-48): a nonempty PORT is
parsed with strconv.Atoi, a parse failure is fatal. -/
def loadEnvPort (atoi : String → Option Int) (getenv : String → String)
    (c : Config) : Except String Config :=
  if getenv envPortKey ≠ "" then
    match atoi (getenv envPortKey) with
    | none => .error ("invalid " ++ envPortKey)
    | some p => .ok { c with Port := p }
  else .ok c

/-- Translation of Config.LoadEnv (lines 41-73).  Each environment variable
overrides its field only when `getenv` returns a nonempty string; a parse
failure of PORT or TIMEOUT_DURATION, and the combination of a nonempty
SCRIPT with a nonempty SCRIPT_FILE, are `log.Fatalf`, i.e. `Except.error`. -/
def LoadEnv (atoi : String → Option Int) (parseDur : String → Option Nat)
    (getenv : String → String) (c : Config) : Except String Config :=
  match loadEnvPort atoi getenv c with
  | .error e => .error e
  | .ok c =>
    let c := if getenv envInlineKey ≠ "" then { c with InlineScript := getenv envInlineKey } else c
    let c := if getenv envScriptFileKey ≠ "" then { c with ScriptFile := getenv envScriptFileKey } else c
    if c.InlineScript ≠ "" ∧ c.ScriptFile ≠ "" then
      .error ("must provide only one of " ++ envInlineKey ++ " or " ++ envScriptFileKey ++ ", not both")
    else
      let c := if getenv envEnvFileKey ≠ "" then { c with EnvFile := getenv envEnvFileKey } else c
      if getenv envTimeoutKey ≠ "" then
        match parseDur (getenv envTimeoutKey) with
        | none => .error ("invalid " ++ envTimeoutKey)
        | some d => .ok { c with Timeout := d }
      else .ok c

/-- One command-line invocation: `none` means the flag was absent, `some v`
that it was passed with value `v` (flag.Parse writes the given value
unconditionally, even an empty string). -/
structure Flags where
  port : Option Int
  script : Option String
  scriptFile : Option String
  envFile : Option String
  timeout : Option Nat
  deriving Repr

/-- Translation of Config.LoadFlags (lines 75-93): every present flag
overrides its field, then a nonempty script together with a nonempty
script file is fatal. -/
def LoadFlags (fl : Flags) (c : Config) : Except String Config :=
  let c := { c with Port := fl.port.getD c.Port }
  let c := { c with InlineScript := fl.script.getD c.InlineScript }
  let c := { c with ScriptFile := fl.scriptFile.getD c.ScriptFile }
  let c := { c with EnvFile := fl.envFile.getD c.EnvFile }
  let c := { c with Timeout := fl.timeout.getD c.Timeout }
  if c.InlineScript ≠ "" ∧ c.ScriptFile ≠ "" then
    .error "must provide only one of --script or --script-file, not both"
  else .ok c

/-- The configuration resolution prefix of main (lines 96-105): defaults,
then LoadEnv, then LoadFlags. -/
def resolveConfig (atoi : String → Option Int) (parseDur : String → Option Nat)
    (getenv : String → String) (fl : Flags) : Except String Config :=
  match LoadEnv atoi parseDur getenv defaultConfig with
  | .error e => .error e
  | .ok c => LoadFlags fl c

/-- The startup of main up to the point where the HTTP server is handed the
configuration (lines 96-114): resolution followed by the exactly-one-script
check of lines 106-108.  An `Except.error` means the process dies with
log.Fatalf before any request is served. -/
def mainStartup (atoi : String → Option Int) (parseDur : String → Option Nat)
    (getenv : String → String) (fl : Flags) : Except String Config :=
  match resolveConfig atoi parseDur getenv fl with
  | .error e => .error e
  | .ok cfg =>
    if (cfg.InlineScript = "") = (cfg.ScriptFile = "") then
      .error ("must provide exactly one of --script or --script-file (or via "
        ++ envInlineKey ++ ", " ++ envScriptFileKey ++ " environment variables)")
    else .ok cfg

/-! ## Diagnostic extraction (src/main.go, lines 187-194) -/

/-- The White_Space code points recognised by `unicode.IsSpace`, which
`bytes.TrimSpace` consults: \t \n \v \f \r space, NEL, NBSP, and the
Unicode space separators. -/
def goIsSpace (n : Nat) : Bool :=
  n = 9 || n = 10 || n = 11 || n = 12 || n = 13 || n = 32 ||
  n = 0x85 || n = 0xA0 || n = 0x1680 ||
  (0x2000 ≤ n && n ≤ 0x200a) ||
  n = 0x2028 || n = 0x2029 || n = 0x202f || n = 0x205f || n = 0x3000

/-- A line is blank when trimming whitespace from it leaves nothing, i.e.
when every character is whitespace. -/
def isBlank (l : String) : Bool := l.toList.all (fun c => goIsSpace c.toNat)

/-- Split a character list on newline, keeping empty pieces, as
bytes.SplitSeq with a one-byte separator does: n separators yield n+1
pieces. -/
def splitNL : List Char → List (List Char)
  | [] => [[]]
  | c :: cs =>
    if c = '\n' then [] :: splitNL cs
    else
      match splitNL cs with
      | [] => [[c]]
      | l :: ls => (c :: l) :: ls

/-- The pieces produced by splitting on the newline byte.  Splitting a Go
string on the byte 0x0A agrees with splitting on the character, because
0x0A never occurs inside a multi-byte UTF-8 sequence. -/
def goLines (s : String) : List String := (splitNL s.data).map String.mk

/-- Translation of firstLine (lines 187-194): the first piece whose
whitespace-trimmed form is nonempty, or the fallback when no piece
qualifies. -/
def goFirstLine (s fallback : String) : String :=
  match (goLines s).find? (fun l => !(isBlank l)) with
  | some l => l
  | none => fallback

/-! ## The request handler (src/main.go, lines 129-185)

The child process is an external collaborator: the handler is parameterised
by `child`, mapping the argument list and the stdin bytes to the observed
outcome of cmd.Run.  The request carries the outcome of io.ReadAll of its
body.  The trace records, besides the response, whether the body reader was
consumed, whether the deferred r.Body.Close ran, and the spawn (if any)
with the exact command name, argument list and stdin bytes. -/

/-- Outcome of cmd.Run with both output buffers: `err = none` is a zero
exit status, `err = some m` an error whose Error() text is `m`. -/
structure ChildOutcome where
  stdout : List Nat
  stderr : String
  err : Option String
  deriving Repr

/-- An inbound HTTP request as the handler observes it: the method string
and what io.ReadAll of the body would yield. -/
structure Request where
  method : String
  body : Except String (List Nat)
  deriving Repr

/-- What the handler wrote: either the success body (w.Write of the stdout
bytes) or the message handed to http.Error, which sends it with a trailing
newline as text/plain. -/
inductive RespBody where
  | outBytes (bytes : List Nat)
  | errText (msg : String)
  deriving DecidableEq, Repr

/-- The HTTP response: status code, Content-Type header, body. -/
structure HResp where
  status : Nat
  contentType : String
  body : RespBody
  deriving Repr

/-- http.Error sets the content type to text/plain and the given status. -/
def httpError (msg : String) (code : Nat) : HResp :=
  { status := code, contentType := "text/plain; charset=utf-8", body := .errText msg }

/-- A spawned child process: command name, argument list, stdin bytes. -/
structure Spawn where
  cmd : String
  args : List String
  stdin : List Nat
  deriving DecidableEq, Repr

/-- Everything observable about one run of the handler. -/
structure Trace where
  resp : HResp
  bodyReads : Nat
  bodyClosed : Bool
  spawned : Option Spawn
  deriving Repr

/-- Translation of the argument construction (lines 151-161): start empty,
append --env-file and its path when one is configured, then either -e with
the inline script or the script file path. -/
def buildArgs (cfg : Config) : List String :=
  let args : List String := []
  let args := if cfg.EnvFile ≠ "" then args ++ ["--env-file", cfg.EnvFile] else args
  if cfg.InlineScript ≠ "" then args ++ ["-e", cfg.InlineScript]
  else args ++ [cfg.ScriptFile]

/-- Translation of the handler returned by makeInvokeHandler (lines
130-184).  Note that `defer r.Body.Close()` is only registered after
io.ReadAll succeeds, so the method-check and read-failure exits leave
`bodyClosed` false. -/
def invokeHandler (cfg : Config) (child : List String → List Nat → ChildOutcome)
    (req : Request) : Trace :=
  if req.method ≠ "POST" then
    { resp := httpError "method not allowed" 405, bodyReads := 0,
      bodyClosed := false, spawned := none }
  else
    match req.body with
    | .error e =>
      { resp := httpError ("failed to read request body: " ++ e) 400,
        bodyReads := 1, bodyClosed := false, spawned := none }
    | .ok payload =>
      if !(json_Valid payload) then
        { resp := httpError "invalid JSON payload" 400, bodyReads := 1,
          bodyClosed := true, spawned := none }
      else
        let args := buildArgs cfg
        let out := child args payload
        match out.err with
        | some e =>
          { resp := httpError ("node.js failed: " ++ goFirstLine out.stderr e) 500,
            bodyReads := 1, bodyClosed := true,
            spawned := some { cmd := "node", args := args, stdin := payload } }
        | none =>
          { resp := { status := 200, contentType := "application/json",
                      body := .outBytes out.stdout },
            bodyReads := 1, bodyClosed := true,
            spawned := some { cmd := "node", args := args, stdin := payload } }

/-! ## Timed model of the cancellation scope (src/main.go, lines 148-163)

The handler derives its context with `context.WithTimeout(r.Context(),
cfg.Timeout)` and runs the child with `exec.CommandContext`.  The model
measures time in nanoseconds from the start of the request.  Per the
documented semantics of context.WithTimeout, the derived scope fires at the
earlier of the parent cancellation instant and the timeout; per the
documented semantics of exec.CommandContext, the child is killed when the
scope fires, and cmd.Run then returns a non-nil error. -/

/-- Instant at which the derived scope of line 148 fires: the earlier of
the request-context cancellation (none = never) and the configured
timeout. -/
def ctxDeadline (reqCancelAt : Option Nat) (timeout : Nat) : Nat :=
  match reqCancelAt with
  | none => timeout
  | some t => min t timeout

/-- What the child process would do if never interrupted: time to natural
exit, whether that exit is status zero, its output streams, and the
cmd.Run error text for a non-zero natural exit. -/
structure ChildProc where
  runtime : Nat
  exitOk : Bool
  stdout : List Nat
  stderr : String
  runErrMsg : String
  deriving Repr

/-- Running such a child under a deadline: outcome of cmd.Run paired with
the instant the process is gone.  If the deadline precedes the natural
exit, the process is killed at the deadline and Run reports an error. -/
def runWithDeadline (deadline : Nat) (p : ChildProc) : ChildOutcome × Nat :=
  if p.runtime ≤ deadline then
    ({ stdout := p.stdout, stderr := p.stderr,
       err := if p.exitOk then none else some p.runErrMsg }, p.runtime)
  else
    ({ stdout := p.stdout, stderr := p.stderr, err := some "signal: killed" },
     deadline)

/-- The child collaborator induced by the timed model, as the handler sees
it. -/
def timedChild (reqCancelAt : Option Nat) (timeout : Nat) (p : ChildProc) :
    List String → List Nat → ChildOutcome :=
  fun _ _ => (runWithDeadline (ctxDeadline reqCancelAt timeout) p).1

/-- The instant the child process is gone in the timed model. -/
def childGoneAt (reqCancelAt : Option Nat) (timeout : Nat) (p : ChildProc) : Nat :=
  (runWithDeadline (ctxDeadline reqCancelAt timeout) p).2

/-! ## Spec-side predicates -/

/-- One string occurs inside another (stated on the character lists). -/
def ContainsStr (a b : String) : Prop :=
  ∃ p q, a.data = p ++ b.data ++ q

/-- `l` is the first non-blank line of `s`: it appears at some index of the
newline split, is not blank, and every earlier piece is blank. -/
def FirstNonBlankLine (s l : String) : Prop :=
  ∃ i : Nat, (goLines s)[i]? = some l ∧ isBlank l = false ∧
    ((goLines s).take i).all isBlank = true

/-! ## Sample values used by the witnesses -/

/-- A child that always exits zero and prints the bytes of `not json`,
which is not a JSON document. -/
def sampleChildOk : List String → List Nat → ChildOutcome :=
  fun _ _ => { stdout := [110, 111, 116, 32, 106, 115, 111, 110], stderr := "", err := none }

/-- The bytes of the JSON document `\x7b\x7d` (an empty object). -/
def samplePayload : List Nat := [123, 125]

/-- A well-formed POST request carrying the sample payload. -/
def sampleReq : Request := { method := "POST", body := .ok samplePayload }

/-- A child that fails with a blank first stderr line followed by a
diagnostic, the example of the claim. -/
def sampleChildFail : List String → List Nat → ChildOutcome :=
  fun _ _ => { stdout := [], stderr := "\nError: boom\n", err := some "exit status 1" }

/-- A second POST request with a different payload (an empty array). -/
def sampleReq2 : Request := { method := "POST", body := .ok [91, 93] }

/-- A child process that would take 40 seconds to exit cleanly. -/
def sampleSlowProc : ChildProc :=
  { runtime := 40 * 1000000000, exitOk := true, stdout := [], stderr := "",
    runErrMsg := "" }

/-- Environment with every variable unset. -/
def emptyEnv : String → String := fun _ => ""

/-- Command line with no flags passed. -/
def noFlags : Flags :=
  { port := none, script := none, scriptFile := none, envFile := none,
    timeout := none }

/-! ## Theorems for the claims -/

/-- C1: when the child process exits with status zero, the handler responds
200 with Content-Type application/json and writes exactly the captured
stdout bytes, with no JSON validation of them (the stdout bytes are
universally quantified and the witness uses a non-JSON stdout). -/
theorem handler_success_returns_stdout
    (cfg : Config) (child : List String → List Nat → ChildOutcome)
    (req : Request) (payload : List Nat)
    (hm : req.method = "POST") (hb : req.body = .ok payload)
    (hv : json_Valid payload = true)
    (hok : (child (buildArgs cfg) payload).err = none) :
    (invokeHandler cfg child req).resp.status = 200 ∧
    (invokeHandler cfg child req).resp.contentType = "application/json" ∧
    (invokeHandler cfg child req).resp.body =
      .outBytes (child (buildArgs cfg) payload).stdout := by
  simp [invokeHandler, hm, hb, hv, hok]

/-- Witness for C1 at a concrete configuration, request and child whose
stdout is not JSON. -/
theorem handler_success_returns_stdout_witness :
    (invokeHandler defaultConfig sampleChildOk sampleReq).resp.status = 200 ∧
    (invokeHandler defaultConfig sampleChildOk sampleReq).resp.contentType = "application/json" ∧
    (invokeHandler defaultConfig sampleChildOk sampleReq).resp.body =
      .outBytes (sampleChildOk (buildArgs defaultConfig) samplePayload).stdout :=
  handler_success_returns_stdout defaultConfig sampleChildOk sampleReq samplePayload
    rfl rfl (by decide) rfl

/-- C4: a POST whose body is not valid JSON is answered 400 with the fixed
diagnostic and no child process is spawned; the empty body is among the
invalid ones. -/
theorem invalid_json_rejected
    (cfg : Config) (child : List String → List Nat → ChildOutcome)
    (req : Request) (payload : List Nat)
    (hm : req.method = "POST") (hb : req.body = .ok payload)
    (hv : json_Valid payload = false) :
    (invokeHandler cfg child req).resp.status = 400 ∧
    (invokeHandler cfg child req).resp.body = .errText "invalid JSON payload" ∧
    (invokeHandler cfg child req).spawned = none ∧
    json_Valid [] = false := by
  refine ⟨?_, ?_, ?_, by decide⟩ <;> simp [invokeHandler, httpError, hm, hb, hv]

/-- Witness for C4 at the body consisting of the single byte of an opening
brace. -/
theorem invalid_json_rejected_witness :
    (invokeHandler defaultConfig sampleChildOk { method := "POST", body := .ok [123] }).resp.status = 400 ∧
    (invokeHandler defaultConfig sampleChildOk { method := "POST", body := .ok [123] }).resp.body =
      .errText "invalid JSON payload" ∧
    (invokeHandler defaultConfig sampleChildOk { method := "POST", body := .ok [123] }).spawned = none ∧
    json_Valid [] = false :=
  invalid_json_rejected defaultConfig sampleChildOk _ [123] rfl rfl (by decide)

/-- C5: a request whose method is not POST is answered 405, its body is
never read and no child process is spawned. -/
theorem non_post_rejected
    (cfg : Config) (child : List String → List Nat → ChildOutcome)
    (req : Request) (hm : req.method ≠ "POST") :
    (invokeHandler cfg child req).resp.status = 405 ∧
    (invokeHandler cfg child req).bodyReads = 0 ∧
    (invokeHandler cfg child req).spawned = none := by
  simp [invokeHandler, httpError, hm]

/-- Witness for C5 at a GET request. -/
theorem non_post_rejected_witness :
    (invokeHandler defaultConfig sampleChildOk { method := "GET", body := .ok samplePayload }).resp.status = 405 ∧
    (invokeHandler defaultConfig sampleChildOk { method := "GET", body := .ok samplePayload }).bodyReads = 0 ∧
    (invokeHandler defaultConfig sampleChildOk { method := "GET", body := .ok samplePayload }).spawned = none :=
  non_post_rejected defaultConfig sampleChildOk _ (by decide)

/-- C6: the interpreter argument list is exactly the optional env-file
block followed by the script block, the latter being the inline script
under -e when it is set and the script file path otherwise. -/
theorem args_deterministic_shape (cfg : Config) :
    buildArgs cfg =
      (if cfg.EnvFile ≠ "" then ["--env-file", cfg.EnvFile] else []) ++
      (if cfg.InlineScript ≠ "" then ["-e", cfg.InlineScript] else [cfg.ScriptFile]) := by
  unfold buildArgs
  split_ifs <;> simp

/-- find? with the non-blank test returns the entry at the first index past
an all-blank prefix. -/
theorem find?_nonblank_of_first (ls : List String) :
    ∀ (i : Nat) (l : String), ls[i]? = some l → isBlank l = false →
      ((ls.take i).all isBlank) = true →
      ls.find? (fun x => !(isBlank x)) = some l := by
  induction ls with
  | nil => intro i l h _ _; simp at h
  | cons a tl ih =>
    intro i l h hbl hall
    cases i with
    | zero =>
      simp only [List.getElem?_cons_zero, Option.some.injEq] at h
      subst h
      exact List.find?_cons_of_pos _ (by simp [hbl])
    | succ k =>
      simp only [List.take_succ_cons, List.all_cons, Bool.and_eq_true] at hall
      rw [List.find?_cons_of_neg _ (by simp [hall.1])]
      exact ih k l (by simpa using h) hbl hall.2

/-- goFirstLine returns the first non-blank line when the input has one,
whatever the fallback. -/
theorem goFirstLine_of_first (s l fb : String) (h : FirstNonBlankLine s l) :
    goFirstLine s fb = l := by
  obtain ⟨i, hi, hbl, hall⟩ := h
  unfold goFirstLine
  rw [find?_nonblank_of_first (goLines s) i l hi hbl hall]

/-- goFirstLine falls back when the input is the empty string. -/
theorem goFirstLine_empty (fb : String) : goFirstLine "" fb = fb := by
  simp [goFirstLine, goLines, splitNL, isBlank]

/-- C2: when the child process fails, the handler responds 500 with a
message that contains the first non-blank stderr line, and contains the
error text of cmd.Run itself when stderr is empty. -/
theorem handler_failure_diagnostic
    (cfg : Config) (child : List String → List Nat → ChildOutcome)
    (req : Request) (payload : List Nat) (e : String)
    (hm : req.method = "POST") (hb : req.body = .ok payload)
    (hv : json_Valid payload = true)
    (he : (child (buildArgs cfg) payload).err = some e) :
    (invokeHandler cfg child req).resp.status = 500 ∧
    ∃ m, (invokeHandler cfg child req).resp.body = RespBody.errText m ∧
      (∀ l, FirstNonBlankLine (child (buildArgs cfg) payload).stderr l → ContainsStr m l) ∧
      ((child (buildArgs cfg) payload).stderr = "" → ContainsStr m e) := by
  have hred : invokeHandler cfg child req =
      { resp := httpError ("node.js failed: " ++
          goFirstLine (child (buildArgs cfg) payload).stderr e) 500,
        bodyReads := 1, bodyClosed := true,
        spawned := some { cmd := "node", args := buildArgs cfg, stdin := payload } } := by
    simp [invokeHandler, hm, hb, hv, he]
  rw [hred]
  refine ⟨rfl, "node.js failed: " ++
    goFirstLine (child (buildArgs cfg) payload).stderr e, rfl, ?_, ?_⟩
  · intro l hl
    rw [goFirstLine_of_first _ l e hl]
    exact ⟨"node.js failed: ".data, [], by simp [String.data_append]⟩
  · intro hs
    rw [hs, goFirstLine_empty]
    exact ⟨"node.js failed: ".data, [], by simp [String.data_append]⟩

/-- Witness for C2: stderr consisting of a blank line followed by a
diagnostic yields a 500 whose message contains the diagnostic. -/
theorem handler_failure_diagnostic_witness :
    (invokeHandler defaultConfig sampleChildFail sampleReq).resp.status = 500 ∧
    ∃ m, (invokeHandler defaultConfig sampleChildFail sampleReq).resp.body = RespBody.errText m ∧
      ContainsStr m "Error: boom" := by
  obtain ⟨h5, m, hbody, hfl, _⟩ :=
    handler_failure_diagnostic defaultConfig sampleChildFail sampleReq samplePayload
      "exit status 1" rfl rfl (by decide) rfl
  exact ⟨h5, m, hbody, hfl "Error: boom" ⟨1, by decide, by decide, by decide⟩⟩

/-- C3: the cancellation scope handed to the child is a single scope firing
at the earlier of the request cancellation and the configured timeout, and
a child whose natural runtime exceeds the timeout is killed no later than
the timeout, before its natural exit, with a 500 response. -/
theorem handler_timeout_scope
    (cfg : Config) (p : ChildProc) (reqCancelAt : Option Nat)
    (req : Request) (payload : List Nat)
    (hm : req.method = "POST") (hb : req.body = .ok payload)
    (hv : json_Valid payload = true)
    (hover : cfg.Timeout < p.runtime) :
    (reqCancelAt = none → ctxDeadline reqCancelAt cfg.Timeout = cfg.Timeout) ∧
    (∀ t, reqCancelAt = some t → ctxDeadline reqCancelAt cfg.Timeout = min t cfg.Timeout) ∧
    childGoneAt reqCancelAt cfg.Timeout p ≤ cfg.Timeout ∧
    childGoneAt reqCancelAt cfg.Timeout p < p.runtime ∧
    (invokeHandler cfg (timedChild reqCancelAt cfg.Timeout p) req).resp.status = 500 := by
  have hd : ctxDeadline reqCancelAt cfg.Timeout ≤ cfg.Timeout := by
    cases reqCancelAt <;> simp [ctxDeadline]
  have hrun : runWithDeadline (ctxDeadline reqCancelAt cfg.Timeout) p =
      ({ stdout := p.stdout, stderr := p.stderr, err := some "signal: killed" },
       ctxDeadline reqCancelAt cfg.Timeout) := by
    unfold runWithDeadline
    rw [if_neg (by omega)]
  have he : (timedChild reqCancelAt cfg.Timeout p (buildArgs cfg) payload).err =
      some "signal: killed" := by
    unfold timedChild
    rw [hrun]
  refine ⟨fun h => by simp [ctxDeadline, h], fun t h => by simp [ctxDeadline, h],
    ?_, ?_, ?_⟩
  · unfold childGoneAt; rw [hrun]; exact hd
  · unfold childGoneAt; rw [hrun]; exact lt_of_le_of_lt hd hover
  · simp [invokeHandler, httpError, hm, hb, hv, he]

/-- Witness for C3 at the default 30 second timeout, no request
cancellation, and a child that would run for 40 seconds. -/
theorem handler_timeout_scope_witness :
    (none = (none : Option Nat) →
      ctxDeadline none defaultConfig.Timeout = defaultConfig.Timeout) ∧
    (∀ t, (none : Option Nat) = some t →
      ctxDeadline none defaultConfig.Timeout = min t defaultConfig.Timeout) ∧
    childGoneAt none defaultConfig.Timeout sampleSlowProc ≤ defaultConfig.Timeout ∧
    childGoneAt none defaultConfig.Timeout sampleSlowProc < sampleSlowProc.runtime ∧
    (invokeHandler defaultConfig
      (timedChild none defaultConfig.Timeout sampleSlowProc) sampleReq).resp.status = 500 :=
  handler_timeout_scope defaultConfig sampleSlowProc none sampleReq samplePayload
    rfl rfl (by decide) (by decide)

/-- C7: whenever configuration resolution yields a configuration in which
the inline script and the script file are both set or both unset, main
dies with log.Fatalf before the server is handed the configuration, so the
condition can never reach the request handler. -/
theorem bad_script_config_fatal
    (atoi : String → Option Int) (parseDur : String → Option Nat)
    (getenv : String → String) (fl : Flags) (c : Config)
    (hres : resolveConfig atoi parseDur getenv fl = .ok c)
    (hbad : (c.InlineScript = "") = (c.ScriptFile = "")) :
    ∃ m, mainStartup atoi parseDur getenv fl = .error m := by
  unfold mainStartup
  rw [hres]
  exact ⟨_, if_pos hbad⟩

/-- Witness for C7: with nothing configured at all, resolution succeeds
with both script sources empty and startup is fatal. -/
theorem bad_script_config_fatal_witness :
    ∃ m, mainStartup (fun _ => none) (fun _ => none) emptyEnv noFlags = .error m :=
  bad_script_config_fatal (fun _ => none) (fun _ => none) emptyEnv noFlags
    defaultConfig rfl rfl

/-- C8 counterexample: on the read-failure exit path the deferred
r.Body.Close has not yet been registered, so the handler returns without
closing the body. -/
theorem read_failure_body_not_closed :
    (invokeHandler defaultConfig sampleChildOk
      { method := "POST", body := .error "connection reset" }).bodyClosed = false := by
  decide

/-- C8 amended: once the body has been read successfully, every exit path
of the handler (validation failure, invocation failure, success) closes
the body, and the body is read exactly once; the method-check and
read-failure exits return before the close is registered. -/
theorem body_closed_after_read
    (cfg : Config) (child : List String → List Nat → ChildOutcome)
    (req : Request) (payload : List Nat)
    (hm : req.method = "POST") (hb : req.body = .ok payload) :
    (invokeHandler cfg child req).bodyClosed = true ∧
    (invokeHandler cfg child req).bodyReads ≤ 1 := by
  by_cases hv : json_Valid payload = true
  · cases he : (child (buildArgs cfg) payload).err <;>
      simp [invokeHandler, hm, hb, hv, he]
  · have hv' : json_Valid payload = false := by
      revert hv
      cases json_Valid payload <;> simp
    simp [invokeHandler, hm, hb, hv']

/-- Witness for the amended C8 at the sample request. -/
theorem body_closed_after_read_witness :
    (invokeHandler defaultConfig sampleChildOk sampleReq).bodyClosed = true ∧
    (invokeHandler defaultConfig sampleChildOk sampleReq).bodyReads ≤ 1 :=
  body_closed_after_read defaultConfig sampleChildOk sampleReq samplePayload rfl rfl

/-- Whenever the handler spawns at all, the spawn is the node command with
the configuration-determined arguments, fed the request payload on stdin. -/
theorem spawned_shape
    (cfg : Config) (child : List String → List Nat → ChildOutcome)
    (req : Request) (s : Spawn)
    (h : (invokeHandler cfg child req).spawned = some s) :
    s.cmd = "node" ∧ s.args = buildArgs cfg ∧ req.body = .ok s.stdin := by
  simp only [invokeHandler] at h
  split at h
  · simp at h
  · split at h
    · simp at h
    · next payload heq =>
      split at h
      · simp at h
      · split at h <;>
        · simp only [Option.some.injEq] at h
          subst h
          exact ⟨rfl, rfl, heq⟩

/-- C9: under one configuration, any two spawns use the same command name
(node) and identical, configuration-determined argument lists; the request
payload reaches the child only as its stdin bytes. -/
theorem spawn_depends_only_on_config
    (cfg : Config) (child1 child2 : List String → List Nat → ChildOutcome)
    (r1 r2 : Request) (s1 s2 : Spawn)
    (h1 : (invokeHandler cfg child1 r1).spawned = some s1)
    (h2 : (invokeHandler cfg child2 r2).spawned = some s2) :
    s1.cmd = "node" ∧ s1.cmd = s2.cmd ∧ s1.args = s2.args ∧
    s1.args = buildArgs cfg ∧ r1.body = .ok s1.stdin := by
  obtain ⟨hc1, ha1, hb1⟩ := spawned_shape cfg child1 r1 s1 h1
  obtain ⟨hc2, ha2, hb2⟩ := spawned_shape cfg child2 r2 s2 h2
  exact ⟨hc1, hc1.trans hc2.symm, ha1.trans ha2.symm, ha1, hb1⟩

/-- Witness for C9 at two requests with different payloads. -/
theorem spawn_depends_only_on_config_witness :
    (⟨"node", buildArgs defaultConfig, samplePayload⟩ : Spawn).cmd = "node" ∧
    (⟨"node", buildArgs defaultConfig, samplePayload⟩ : Spawn).cmd =
      (⟨"node", buildArgs defaultConfig, [91, 93]⟩ : Spawn).cmd ∧
    (⟨"node", buildArgs defaultConfig, samplePayload⟩ : Spawn).args =
      (⟨"node", buildArgs defaultConfig, [91, 93]⟩ : Spawn).args ∧
    (⟨"node", buildArgs defaultConfig, samplePayload⟩ : Spawn).args = buildArgs defaultConfig ∧
    sampleReq.body = .ok (⟨"node", buildArgs defaultConfig, samplePayload⟩ : Spawn).stdin :=
  spawn_depends_only_on_config defaultConfig sampleChildOk sampleChildOk
    sampleReq sampleReq2 _ _ (by decide) (by decide)

/-- The PORT block leaves every other field alone and, when PORT evaluates
to the empty string, the port as well. -/
theorem loadEnvPort_ok (atoi : String → Option Int) (getenv : String → String)
    (c x : Config) (h : loadEnvPort atoi getenv c = .ok x) :
    x.InlineScript = c.InlineScript ∧ x.ScriptFile = c.ScriptFile ∧
    x.EnvFile = c.EnvFile ∧ x.Timeout = c.Timeout ∧
    (getenv envPortKey = "" → x.Port = c.Port) := by
  unfold loadEnvPort at h
  iterate 3 (all_goals (try split at h))
  all_goals (try (simp only [Except.ok.injEq] at h; subst h))
  all_goals simp_all

/-- C10: LoadEnv treats an environment variable holding the empty string
exactly like an unset one: whenever LoadEnv completes, each field whose
variable evaluates to the empty string keeps its incoming value. -/
theorem loadenv_empty_var_keeps_field
    (atoi : String → Option Int) (parseDur : String → Option Nat)
    (getenv : String → String) (c c' : Config)
    (h : LoadEnv atoi parseDur getenv c = .ok c') :
    (getenv envPortKey = "" → c'.Port = c.Port) ∧
    (getenv envInlineKey = "" → c'.InlineScript = c.InlineScript) ∧
    (getenv envScriptFileKey = "" → c'.ScriptFile = c.ScriptFile) ∧
    (getenv envEnvFileKey = "" → c'.EnvFile = c.EnvFile) ∧
    (getenv envTimeoutKey = "" → c'.Timeout = c.Timeout) := by
  simp only [LoadEnv] at h
  split at h
  · exact absurd h (by simp)
  · next c1 heq =>
    obtain ⟨hi1, hs1, hf1, ht1, hp1⟩ := loadEnvPort_ok atoi getenv c c1 heq
    iterate 8 (all_goals (try split at h))
    all_goals (try (simp only [Except.ok.injEq] at h; subst h))
    all_goals simp_all

/-- Witness for C10 with every variable unset. -/
theorem loadenv_empty_var_keeps_field_witness :
    (emptyEnv envPortKey = "" → defaultConfig.Port = defaultConfig.Port) ∧
    (emptyEnv envInlineKey = "" → defaultConfig.InlineScript = defaultConfig.InlineScript) ∧
    (emptyEnv envScriptFileKey = "" → defaultConfig.ScriptFile = defaultConfig.ScriptFile) ∧
    (emptyEnv envEnvFileKey = "" → defaultConfig.EnvFile = defaultConfig.EnvFile) ∧
    (emptyEnv envTimeoutKey = "" → defaultConfig.Timeout = defaultConfig.Timeout) :=
  loadenv_empty_var_keeps_field (fun _ => none) (fun _ => none) emptyEnv
    defaultConfig defaultConfig rfl

end InvokeNode
